import Mathlib

/-!
Verification development for the Cerebrosso repository.

The repository holds two Python scripts: `test_weighted_signals.py`, an
integration test that sends a hand-written `TokenProfile` payload to the
`/api/v1/analyze/tokens` endpoint, and `scripts/setup-helius-webhooks.py`,
which provisions Helius webhooks.  The weighted-signal scoring pipeline
itself (SignalWeighter, ProfileAggregator, ActionClassifier, AIRouter) is
not part of the repository; those components are modelled here from the
specification, while the webhook script and the test payload are embedded
directly from the source.

Numeric score fields are embedded as rationals (the Python values in the
payloads are exact decimal literals).
-/

namespace Cerebrosso

/-- Clamp a rational to the interval [0, 1]. -/
def clamp01 (x : ℚ) : ℚ := max 0 (min 1 x)

/-- Risk levels, a closed variant as required by the spec. -/
inductive RiskLevel where
  | Low
  | Medium
  | High
deriving DecidableEq, Repr

/-- Recommended actions, a closed variant as required by the spec. -/
inductive RecommendedAction where
  | Ignore
  | Monitor
  | SendToCerebro
  | Execute
deriving DecidableEq, Repr

/-- One observed indicator for a mint, with the exact field vocabulary of
the JSON payloads in `test_weighted_signals.py`. -/
structure Signal where
  signal_type : String
  strength : ℚ
  confidence : ℚ
  source : String
  weight : ℚ
  weighted_strength : ℚ
  signal_name : String
deriving DecidableEq, Repr

/-- Aggregated view of one mint, with the exact field vocabulary of the
mock profile in `test_weighted_signals.py`. -/
structure TokenProfile where
  mint : String
  score : ℚ
  signals : List Signal
  risk_level : RiskLevel
  analysis_timestamp : ℕ
  recommended_action : RecommendedAction
  top_signals : List Signal
  potential_score : ℚ
  risk_score : ℚ
  weighted_score : ℚ
deriving DecidableEq, Repr

/-- The mock `volume_spike` signal from `test_weighted_signals.py`
(it appears both in `signals` and in `top_signals`). -/
def mockVolumeSpike : Signal :=
  { signal_type := "VolumeSpike"
    strength := 0.8
    confidence := 0.9
    source := "volume_analysis"
    weight := 0.7
    weighted_strength := 0.504
    signal_name := "volume_spike" }

/-- The mock `high_liquidity` signal from `test_weighted_signals.py`
(it appears only in `top_signals`). -/
def mockHighLiquidity : Signal :=
  { signal_type := "HighLiquidity"
    strength := 0.9
    confidence := 0.95
    source := "liquidity_analysis"
    weight := 0.7
    weighted_strength := 0.5985
    signal_name := "high_liquidity" }

/-- The mock token profile sent by `test_cerebro_bff_endpoint` in
`test_weighted_signals.py`, parametrised by the runtime timestamp
(`int(time.time())` in the source). -/
def mockProfile (ts : ℕ) : TokenProfile :=
  { mint := "EPjFWdd5AufqSSqeM2qN1xzybapC8G4wEGGkZwyTDt1v"
    score := 0.85
    signals := [mockVolumeSpike]
    risk_level := RiskLevel.Medium
    analysis_timestamp := ts
    recommended_action := RecommendedAction.SendToCerebro
    top_signals := [mockHighLiquidity, mockVolumeSpike]
    potential_score := 0.75
    risk_score := 0.25
    weighted_score := 0.85 }

/-- Modelled from the spec: the SignalWeighter is not under `src/` (only
the test payload exercising it is).  The spec's §4.2 formula is
`clamp(strength × weight, 0, 1)`; the payload data in
`test_weighted_signals.py` instead follows
`clamp(strength × confidence × weight, 0, 1)` (0.8 × 0.9 × 0.7 = 0.504 and
0.9 × 0.95 × 0.7 = 0.5985), the arithmetic the spec's §9 itself exhibits
for the sample signal.  This definition follows the payload arithmetic. -/
def weightedStrengthOf (strength confidence weight : ℚ) : ℚ :=
  clamp01 (strength * confidence * weight)

/-- Modelled from the spec: the ActionClassifier of §4.4 is not under
`src/`.  It is the deterministic decision function on
`(weighted_score, risk_score, risk_level)`: High risk vetoes to Ignore;
otherwise the score bands [0, 0.3), [0.3, 0.6), [0.6, 0.85), [0.85, ∞)
give Ignore, Monitor, SendToCerebro, and Execute-when-Low-risk
(SendToCerebro otherwise). -/
def classifyAction (weighted_score risk_score : ℚ) (risk_level : RiskLevel) :
    RecommendedAction :=
  if risk_level = RiskLevel.High then RecommendedAction.Ignore
  else if weighted_score < 3/10 then RecommendedAction.Ignore
  else if weighted_score < 6/10 then RecommendedAction.Monitor
  else if weighted_score < 85/100 then RecommendedAction.SendToCerebro
  else if risk_level = RiskLevel.Low then RecommendedAction.Execute
  else RecommendedAction.SendToCerebro

/-- Modelled from the spec: the positive-indicator signal types of §4.3
(VolumeSpike, HighLiquidity, SwapActivity, LiquidityAdd). -/
def isPositiveType (t : String) : Bool :=
  t == "VolumeSpike" || t == "HighLiquidity" || t == "SwapActivity" ||
    t == "LiquidityAdd"

/-- Modelled from the spec: the risk-indicator signal types of §4.3
(LiquidityRemove, BurnEvent). -/
def isRiskType (t : String) : Bool :=
  t == "LiquidityRemove" || t == "BurnEvent"

/-- Modelled from the spec: the confidence-weighted average of
`weighted_strength` over a signal list (§4.3), defaulting to 0 when the
total confidence is 0 (in particular on the empty list). -/
def confWeightedAvg (xs : List Signal) : ℚ :=
  if (xs.map fun s => s.confidence).sum = 0 then 0
  else (xs.map fun s => s.confidence * s.weighted_strength).sum /
    (xs.map fun s => s.confidence).sum

/-- Modelled from the spec: `potential_score` of §4.3, the
confidence-weighted average over the positive-indicator signals. -/
def potentialScore (ss : List Signal) : ℚ :=
  confWeightedAvg (ss.filter fun s => isPositiveType s.signal_type)

/-- Modelled from the spec: `risk_score` of §4.3, the confidence-weighted
average over the risk-indicator signals, 0 when none were observed. -/
def riskScore (ss : List Signal) : ℚ :=
  confWeightedAvg (ss.filter fun s => isRiskType s.signal_type)

/-- Modelled from the spec: the discretization of `risk_score` into a
`risk_level` (§4.3). -/
def riskLevelOf (risk_score : ℚ) : RiskLevel :=
  if risk_score < 33/100 then RiskLevel.Low
  else if risk_score < 66/100 then RiskLevel.Medium
  else RiskLevel.High

/-- Ranking relation for top-signal selection: higher `weighted_strength`
first, ties broken by higher `confidence` (the remaining tie, earlier
observation, is resolved by the stability of insertion sort). -/
def rankRel (a b : Signal) : Prop :=
  b.weighted_strength < a.weighted_strength ∨
    (b.weighted_strength = a.weighted_strength ∧ b.confidence ≤ a.confidence)

instance : DecidableRel rankRel := fun a b => by
  unfold rankRel; infer_instance

instance : IsTotal Signal rankRel where
  total a b := by
    unfold rankRel
    rcases lt_trichotomy a.weighted_strength b.weighted_strength with h | h | h
    · exact Or.inr (Or.inl h)
    · rcases le_total b.confidence a.confidence with hc | hc
      · exact Or.inl (Or.inr ⟨h.symm, hc⟩)
      · exact Or.inr (Or.inr ⟨h, hc⟩)
    · exact Or.inl (Or.inl h)

instance : IsTrans Signal rankRel where
  trans a b c h1 h2 := by
    unfold rankRel at h1 h2 ⊢
    rcases h1 with h1 | ⟨h1e, h1c⟩ <;> rcases h2 with h2 | ⟨h2e, h2c⟩
    · exact Or.inl (h2.trans h1)
    · exact Or.inl (lt_of_eq_of_lt h2e h1)
    · exact Or.inl (lt_of_lt_of_eq h2 h1e)
    · exact Or.inr ⟨h2e.trans h1e, h2c.trans h1c⟩

/-- Modelled from the spec: `top_signals` selection of §3/§4.3 — the `n`
signals with highest `weighted_strength` (ties by higher confidence, then
earlier observation), obtained by a stable full re-sort and `take`. -/
def selectTopSignals (n : ℕ) (ss : List Signal) : List Signal :=
  (List.insertionSort rankRel ss).take n

/-- Modelled from the spec: the ProfileAggregator snapshot of §4.3 for one
mint — scores, risk level, recommended action and top signals are all
recomputed from the accumulated signal list. -/
def aggregateProfile (mint : String) (ts : ℕ) (ss : List Signal) :
    TokenProfile :=
  { mint := mint
    score := potentialScore ss * (1 - riskScore ss)
    signals := ss
    risk_level := riskLevelOf (riskScore ss)
    analysis_timestamp := ts
    recommended_action :=
      classifyAction (potentialScore ss * (1 - riskScore ss)) (riskScore ss)
        (riskLevelOf (riskScore ss))
    top_signals := selectTopSignals 3 ss
    potential_score := potentialScore ss
    risk_score := riskScore ss
    weighted_score := potentialScore ss * (1 - riskScore ss) }

/-- Modelled from the spec: the outcome of dispatching one profile to the
AI gateway (§4.5) — a success verdict, a per-item failure (validation
error, upstream timeout or upstream error), or a backpressure drop. -/
inductive RouteOutcome where
  | success (action : String) (confidence : ℚ) (agent_type : String)
      (latency_ms : ℤ)
  | failure (error : String)
  | dropped (reason : String)
deriving DecidableEq, Repr

def RouteOutcome.isSuccess : RouteOutcome → Bool
  | RouteOutcome.success _ _ _ _ => true
  | RouteOutcome.failure _ => false
  | RouteOutcome.dropped _ => false

def RouteOutcome.isFailure : RouteOutcome → Bool
  | RouteOutcome.success _ _ _ _ => false
  | RouteOutcome.failure _ => true
  | RouteOutcome.dropped _ => false

def RouteOutcome.isDropped : RouteOutcome → Bool
  | RouteOutcome.success _ _ _ _ => false
  | RouteOutcome.failure _ => false
  | RouteOutcome.dropped _ => true

/-- A gateway outcome is well-formed when its success verdict carries a
confidence in [0, 1] and a nonnegative latency. -/
def RouteOutcome.wellFormed : RouteOutcome → Prop
  | RouteOutcome.success _ c _ l => 0 ≤ c ∧ c ≤ 1 ∧ 0 ≤ l
  | RouteOutcome.failure _ => True
  | RouteOutcome.dropped _ => True

/-- Modelled from the spec: an AIDecision (§3) is either a success shape
`{mint, action, confidence, agent_type, latency_ms}` or a failure shape
`{mint, error}`, a closed tagged variant per §9. -/
inductive AIDecision where
  | success (mint action : String) (confidence : ℚ) (agent_type : String)
      (latency_ms : ℤ)
  | failure (mint error : String)
deriving DecidableEq, Repr

def AIDecision.mint : AIDecision → String
  | AIDecision.success m _ _ _ _ => m
  | AIDecision.failure m _ => m

def AIDecision.isSuccessShape : AIDecision → Bool
  | AIDecision.success _ _ _ _ _ => true
  | AIDecision.failure _ _ => false

def AIDecision.isErrorShape : AIDecision → Bool
  | AIDecision.success _ _ _ _ _ => false
  | AIDecision.failure _ _ => true

/-- A decision is well-formed when a success shape carries a confidence in
[0, 1] and a nonnegative latency (a failure shape always is). -/
def AIDecision.wellFormed : AIDecision → Prop
  | AIDecision.success _ _ c _ l => 0 ≤ c ∧ c ≤ 1 ∧ 0 ≤ l
  | AIDecision.failure _ _ => True

/-- Modelled from the spec: dispatch of one profile by the AIRouter
(§4.5) — a gateway success or failure becomes a decision carrying the
profile's mint; a backpressure drop produces no decision. -/
def routeOne (oracle : TokenProfile → RouteOutcome) (p : TokenProfile) :
    Option AIDecision :=
  match oracle p with
  | RouteOutcome.success a c g l => some (AIDecision.success p.mint a c g l)
  | RouteOutcome.failure e => some (AIDecision.failure p.mint e)
  | RouteOutcome.dropped _ => none

/-- Modelled from the spec: the AIRouter batch dispatch (§4.5), returning
decisions in input order with dropped profiles omitted; `oracle` abstracts
the per-profile gateway outcome. -/
def routeBatch (oracle : TokenProfile → RouteOutcome)
    (ps : List TokenProfile) : List AIDecision :=
  ps.filterMap (routeOne oracle)

/-- The input profiles that were not dropped. -/
def keptProfiles (oracle : TokenProfile → RouteOutcome)
    (ps : List TokenProfile) : List TokenProfile :=
  ps.filter fun p => !(oracle p).isDropped

/-- The input profiles recorded as dropped. -/
def droppedProfiles (oracle : TokenProfile → RouteOutcome)
    (ps : List TokenProfile) : List TokenProfile :=
  ps.filter fun p => (oracle p).isDropped

/-- The request body of `/api/v1/analyze/tokens` as sent by
`test_weighted_signals.py`. -/
structure BatchRequest where
  token_profiles : List TokenProfile
  source : String
  timestamp : ℕ

/-- The per-item breakdown of a batch response. -/
structure Summary where
  submitted : ℕ
  succeeded : ℕ
  failed : ℕ
  dropped : ℕ
deriving DecidableEq, Repr

/-- The response of `/api/v1/analyze/tokens`. -/
structure EndpointResponse where
  status : ℕ
  summary : Summary
  ai_decisions : List AIDecision

/-- Modelled from the spec: the `/api/v1/analyze/tokens` endpoint (§6,
§7) — a top-level malformed payload (`none`) yields a 4xx, any well-formed
batch yields HTTP 200 with per-item decisions and a
submitted/succeeded/failed/dropped summary. -/
def analyzeTokens (oracle : TokenProfile → RouteOutcome) :
    Option BatchRequest → EndpointResponse
  | none => { status := 400, summary := ⟨0, 0, 0, 0⟩, ai_decisions := [] }
  | some r =>
      { status := 200
        summary :=
          { submitted := r.token_profiles.length
            succeeded :=
              (r.token_profiles.filter fun p => (oracle p).isSuccess).length
            failed :=
              (r.token_profiles.filter fun p => (oracle p).isFailure).length
            dropped :=
              (r.token_profiles.filter fun p => (oracle p).isDropped).length }
        ai_decisions := routeBatch oracle r.token_profiles }

/-- A concrete routing oracle used by witnesses: drops mint "A" for
backpressure and succeeds on every other mint. -/
def sampleOracle (p : TokenProfile) : RouteOutcome :=
  if p.mint = "A" then RouteOutcome.dropped "backpressure"
  else RouteOutcome.success "Buy" (9/10) "fast" 50

/-- A concrete two-profile batch used by witnesses. -/
def sampleBatch : List TokenProfile :=
  [aggregateProfile "A" 0 [], aggregateProfile "B" 0 []]

/-- The webhook configuration dataclass of `setup-helius-webhooks.py`. -/
structure WebhookConfig where
  name : String
  account_addresses : List String
  transaction_types : List String
  webhook_url : String
  description : String
deriving DecidableEq, Repr

/-- The webhook payload returned by the Helius API on creation. -/
structure WebhookData where
  webhookID : String
deriving DecidableEq, Repr

/-- Observable events of the webhook-creation loop in `main` of
`setup-helius-webhooks.py` (lines 218-228): an HTTP creation request, the
`time.sleep(1)` call, or a failure printout. -/
inductive SetupEvent where
  | request (name : String)
  | sleepSec (seconds : ℕ)
  | failNote (name : String)
deriving DecidableEq, Repr

/-- Embeds the webhook-creation loop of `main` in
`setup-helius-webhooks.py`: each configuration is passed to
`create_webhook` exactly once; on success the returned data is collected
and the loop sleeps one second; on failure the loop prints a note and
moves on immediately.  `create` abstracts the network outcome. -/
def createWebhooksLoop (create : WebhookConfig → Option WebhookData) :
    List WebhookConfig → List SetupEvent × List WebhookData
  | [] => ([], [])
  | c :: rest =>
      let r := createWebhooksLoop create rest
      match create c with
      | some d =>
          (SetupEvent.request c.name :: SetupEvent.sleepSec 1 :: r.1, d :: r.2)
      | none =>
          (SetupEvent.request c.name :: SetupEvent.failNote c.name :: r.1, r.2)

/-- The names of the creation requests in an event trace, in order. -/
def requestsOf (evs : List SetupEvent) : List String :=
  evs.filterMap fun e =>
    match e with
    | SetupEvent.request n => some n
    | _ => none

/-- The names of the failure printouts in an event trace, in order. -/
def failNotesOf (evs : List SetupEvent) : List String :=
  evs.filterMap fun e =>
    match e with
    | SetupEvent.failNote n => some n
    | _ => none

/-- The number of sleep calls in an event trace. -/
def sleepCountOf (evs : List SetupEvent) : ℕ :=
  (evs.filter fun e =>
    match e with
    | SetupEvent.sleepSec _ => true
    | _ => false).length

/-- The "Token Mint Events" configuration from `get_webhook_configs` in
`setup-helius-webhooks.py`, with the default base URL. -/
def tokenMintEventsConfig : WebhookConfig :=
  { name := "Token Mint Events"
    account_addresses := ["TokenkegQfeZyiNwAJbNbGKLQ7d1gQ3XJQsKj1X1g8qj"]
    transaction_types := ["TRANSFER", "MINT"]
    webhook_url := "https://your-domain.com/webhooks/helius/tokens"
    description := "Monitor new token creation and transfers" }

/-- Outcome of one HTTP interaction as seen by a `try` block of
`setup-helius-webhooks.py`: either a raised exception, or a response with
a status code and a parsed body. -/
inductive HttpResult (β : Type) where
  | exn (msg : String)
  | resp (status : ℕ) (body : β)

/-- An HTTP interaction succeeded with status 200. -/
def HttpResult.ok200 {β : Type} : HttpResult β → Bool
  | HttpResult.exn _ => false
  | HttpResult.resp st _ => st == 200

/-- An HTTP interaction counts as accessible for URL validation (status
200, 404 or 405, per the source comment). -/
def HttpResult.okValidate {β : Type} : HttpResult β → Bool
  | HttpResult.exn _ => false
  | HttpResult.resp st _ => st == 200 || st == 404 || st == 405

namespace HeliusWebhookManager

/-- Embeds `HeliusWebhookManager.create_webhook`: the parsed body on a 200
response, `None` on any other status or on an exception. -/
def create_webhook (r : HttpResult WebhookData) : Option WebhookData :=
  match r with
  | HttpResult.exn _ => none
  | HttpResult.resp st b => if st = 200 then some b else none

/-- Embeds `HeliusWebhookManager.list_webhooks`: the parsed list on a 200
response, the empty list on any other status or on an exception. -/
def list_webhooks (r : HttpResult (List WebhookData)) : List WebhookData :=
  match r with
  | HttpResult.exn _ => []
  | HttpResult.resp st b => if st = 200 then b else []

/-- Embeds `HeliusWebhookManager.delete_webhook`: true exactly on a 200
response, false on any other status or on an exception. -/
def delete_webhook (r : HttpResult Unit) : Bool :=
  match r with
  | HttpResult.exn _ => false
  | HttpResult.resp st _ => st == 200

/-- Embeds `HeliusWebhookManager.validate_webhook_url`: true exactly on a
200, 404 or 405 response, false on any other status or on an exception. -/
def validate_webhook_url (r : HttpResult Unit) : Bool :=
  match r with
  | HttpResult.exn _ => false
  | HttpResult.resp st _ => st == 200 || st == 404 || st == 405

end HeliusWebhookManager

/-! ### Basic lemmas -/

theorem clamp01_nonneg (x : ℚ) : 0 ≤ clamp01 x := le_max_left 0 _

theorem clamp01_le_one (x : ℚ) : clamp01 x ≤ 1 :=
  max_le (by norm_num) (min_le_left 1 x)

theorem confWeightedAvg_nonneg (xs : List Signal)
    (h : ∀ s ∈ xs, 0 ≤ s.confidence ∧ 0 ≤ s.weighted_strength) :
    0 ≤ confWeightedAvg xs := by
  unfold confWeightedAvg
  split_ifs with hd
  · exact le_refl 0
  · apply div_nonneg
    · apply List.sum_nonneg
      intro x hx
      obtain ⟨s, hs, rfl⟩ := List.mem_map.1 hx
      exact mul_nonneg (h s hs).1 (h s hs).2
    · apply List.sum_nonneg
      intro x hx
      obtain ⟨s, hs, rfl⟩ := List.mem_map.1 hx
      exact (h s hs).1

theorem confWeightedAvg_le_one (xs : List Signal)
    (h : ∀ s ∈ xs, 0 ≤ s.confidence ∧ s.weighted_strength ≤ 1) :
    confWeightedAvg xs ≤ 1 := by
  unfold confWeightedAvg
  split_ifs with hd
  · norm_num
  · have hden0 : 0 ≤ (xs.map fun s => s.confidence).sum := by
      apply List.sum_nonneg
      intro x hx
      obtain ⟨s, hs, rfl⟩ := List.mem_map.1 hx
      exact (h s hs).1
    rw [div_le_one (lt_of_le_of_ne hden0 (Ne.symm hd))]
    apply List.sum_le_sum
    intro s hs
    exact mul_le_of_le_one_right (h s hs).1 (h s hs).2

theorem potentialScore_mem_unit (ss : List Signal)
    (h : ∀ s ∈ ss, 0 ≤ s.confidence ∧ 0 ≤ s.weighted_strength ∧
      s.weighted_strength ≤ 1) :
    0 ≤ potentialScore ss ∧ potentialScore ss ≤ 1 := by
  unfold potentialScore
  constructor
  · exact confWeightedAvg_nonneg _ fun s hs =>
      ⟨(h s (List.mem_filter.1 hs).1).1, (h s (List.mem_filter.1 hs).1).2.1⟩
  · exact confWeightedAvg_le_one _ fun s hs =>
      ⟨(h s (List.mem_filter.1 hs).1).1, (h s (List.mem_filter.1 hs).1).2.2⟩

theorem riskScore_mem_unit (ss : List Signal)
    (h : ∀ s ∈ ss, 0 ≤ s.confidence ∧ 0 ≤ s.weighted_strength ∧
      s.weighted_strength ≤ 1) :
    0 ≤ riskScore ss ∧ riskScore ss ≤ 1 := by
  unfold riskScore
  constructor
  · exact confWeightedAvg_nonneg _ fun s hs =>
      ⟨(h s (List.mem_filter.1 hs).1).1, (h s (List.mem_filter.1 hs).1).2.1⟩
  · exact confWeightedAvg_le_one _ fun s hs =>
      ⟨(h s (List.mem_filter.1 hs).1).1, (h s (List.mem_filter.1 hs).1).2.2⟩

theorem rankRel_imp_ws_le {a b : Signal} (h : rankRel a b) :
    b.weighted_strength ≤ a.weighted_strength := by
  rcases h with h | ⟨h, _⟩
  · exact le_of_lt h
  · exact le_of_eq h

theorem selectTopSignals_subperm (n : ℕ) (ss : List Signal) :
    List.Subperm (selectTopSignals n ss) ss :=
  ((List.take_sublist n _).subperm).trans
    (List.perm_insertionSort rankRel ss).subperm

theorem selectTopSignals_length_le (n : ℕ) (ss : List Signal) :
    (selectTopSignals n ss).length ≤ n := by
  unfold selectTopSignals
  rw [List.length_take]
  exact min_le_left _ _

theorem selectTopSignals_sorted (n : ℕ) (ss : List Signal) :
    List.Sorted (fun a b => b.weighted_strength ≤ a.weighted_strength)
      (selectTopSignals n ss) := by
  have hs : List.Sorted rankRel (selectTopSignals n ss) :=
    List.Pairwise.sublist (List.take_sublist n _)
      (List.sorted_insertionSort rankRel ss)
  exact hs.imp fun h => rankRel_imp_ws_le h

theorem routeBatch_map_mint (oracle : TokenProfile → RouteOutcome)
    (ps : List TokenProfile) :
    (routeBatch oracle ps).map AIDecision.mint =
      (keptProfiles oracle ps).map TokenProfile.mint := by
  induction ps with
  | nil => rfl
  | cons p rest ih =>
      cases h : oracle p <;>
        simp [routeBatch, keptProfiles, routeOne, List.filterMap_cons,
          List.filter_cons, h, RouteOutcome.isDropped, AIDecision.mint] <;>
        simpa [routeBatch, keptProfiles] using ih

theorem kept_add_dropped (oracle : TokenProfile → RouteOutcome)
    (ps : List TokenProfile) :
    (keptProfiles oracle ps).length + (droppedProfiles oracle ps).length =
      ps.length := by
  induction ps with
  | nil => rfl
  | cons p rest ih =>
      unfold keptProfiles droppedProfiles at ih ⊢
      cases hd : (oracle p).isDropped <;>
        simp [List.filter_cons, hd] <;> omega

theorem routeBatch_length (oracle : TokenProfile → RouteOutcome)
    (ps : List TokenProfile) :
    (routeBatch oracle ps).length = (keptProfiles oracle ps).length := by
  have h := congrArg List.length (routeBatch_map_mint oracle ps)
  simpa using h

theorem summary_partition (oracle : TokenProfile → RouteOutcome)
    (ps : List TokenProfile) :
    (ps.filter fun p => (oracle p).isSuccess).length +
        (ps.filter fun p => (oracle p).isFailure).length +
        (ps.filter fun p => (oracle p).isDropped).length = ps.length := by
  induction ps with
  | nil => rfl
  | cons p rest ih =>
      cases h : oracle p with
      | success a c g l =>
          have hS : (oracle p).isSuccess = true := by rw [h]; rfl
          have hF : (oracle p).isFailure = false := by rw [h]; rfl
          have hD : (oracle p).isDropped = false := by rw [h]; rfl
          simp [List.filter_cons, hS, hF, hD]
          omega
      | failure e =>
          have hS : (oracle p).isSuccess = false := by rw [h]; rfl
          have hF : (oracle p).isFailure = true := by rw [h]; rfl
          have hD : (oracle p).isDropped = false := by rw [h]; rfl
          simp [List.filter_cons, hS, hF, hD]
          omega
      | dropped reason =>
          have hS : (oracle p).isSuccess = false := by rw [h]; rfl
          have hF : (oracle p).isFailure = false := by rw [h]; rfl
          have hD : (oracle p).isDropped = true := by rw [h]; rfl
          simp [List.filter_cons, hS, hF, hD]
          omega

/-! ### Claim theorems -/

/-- C1 counterexample: the claim says `weighted_strength` equals
`clamp(strength × weight, 0, 1)`, so a signal with strength 0.8 and weight
0.7 would carry 0.56; the mock signal of `test_weighted_signals.py` with
exactly those fields carries 0.504 instead. -/
theorem C1_counterexample :
    mockVolumeSpike.strength = 0.8 ∧ mockVolumeSpike.weight = 0.7 ∧
      mockVolumeSpike.weighted_strength ≠
        clamp01 (mockVolumeSpike.strength * mockVolumeSpike.weight) := by
  refine ⟨rfl, rfl, ?_⟩
  simp only [mockVolumeSpike, clamp01]
  norm_num

/-- C1 (amended): `weighted_strength` always lies in [0, 1] and equals
`clamp(strength × confidence × weight, 0, 1)`; both mock signals of
`test_weighted_signals.py` satisfy this equation, in particular the signal
with strength 0.8, confidence 0.9 and weight 0.7 carries 0.504. -/
theorem C1_amended (s c w : ℚ) :
    (0 ≤ weightedStrengthOf s c w ∧ weightedStrengthOf s c w ≤ 1) ∧
      weightedStrengthOf s c w = clamp01 (s * c * w) ∧
      mockVolumeSpike.weighted_strength =
        weightedStrengthOf mockVolumeSpike.strength mockVolumeSpike.confidence
          mockVolumeSpike.weight ∧
      mockHighLiquidity.weighted_strength =
        weightedStrengthOf mockHighLiquidity.strength mockHighLiquidity.confidence
          mockHighLiquidity.weight := by
  refine ⟨⟨clamp01_nonneg _, clamp01_le_one _⟩, rfl, ?_, ?_⟩ <;>
    · simp only [mockVolumeSpike, mockHighLiquidity, weightedStrengthOf, clamp01]
      norm_num

/-- C2: the ActionClassifier is total and deterministic — every triple
maps to exactly one action — High risk always yields Ignore, and a score
of at least 0.85 yields Execute exactly when the risk level is Low and
SendToCerebro for Medium risk. -/
theorem C2_classifier_total (ws rs : ℚ) (lvl : RiskLevel) :
    (∃! a, classifyAction ws rs lvl = a) ∧
      (classifyAction ws rs RiskLevel.High = RecommendedAction.Ignore) ∧
      (lvl ≠ RiskLevel.High → 85/100 ≤ ws →
        classifyAction ws rs lvl =
          if lvl = RiskLevel.Low then RecommendedAction.Execute
          else RecommendedAction.SendToCerebro) := by
  refine ⟨⟨classifyAction ws rs lvl, rfl, fun a ha => ha.symm⟩, ?_, ?_⟩
  · simp [classifyAction]
  · intro hlvl hws
    have h1 : ¬ ws < 3/10 := by linarith
    have h2 : ¬ ws < 6/10 := by linarith
    have h3 : ¬ ws < 85/100 := by linarith
    simp [classifyAction, hlvl, h1, h2, h3]

/-- C2 witness: scenario B of the spec, score 0.9 with Low risk executes,
and the same score with High risk is vetoed to Ignore. -/
theorem C2_witness :
    classifyAction (9/10) 0 RiskLevel.Low = RecommendedAction.Execute ∧
      classifyAction (9/10) 0 RiskLevel.High = RecommendedAction.Ignore := by
  have h := C2_classifier_total (9/10) 0 RiskLevel.Low
  refine ⟨?_, (C2_classifier_total (9/10) 0 RiskLevel.High).2.1⟩
  have h3 := h.2.2 (by decide) (by norm_num)
  simpa using h3

/-- C3 counterexample: the mock profile in `test_weighted_signals.py`
carries `weighted_score = 0.85` while
`potential_score × (1 − risk_score) = 0.75 × 0.75 = 0.5625`, so the claim
fails on the repository's own TokenProfile value. -/
theorem C3_counterexample :
    (mockProfile 0).weighted_score ≠
      (mockProfile 0).potential_score * (1 - (mockProfile 0).risk_score) := by
  simp only [mockProfile]
  norm_num

/-- C3 (amended): for every TokenProfile produced by the ProfileAggregator
the equation `weighted_score = potential_score × (1 − risk_score)` holds,
and (for signal fields in [0, 1]) the weighted score itself lies in
[0, 1]; the hand-written mock profile of the test script does not satisfy
the equation. -/
theorem C3_amended (mint : String) (ts : ℕ) (ss : List Signal)
    (h : ∀ s ∈ ss, 0 ≤ s.confidence ∧ 0 ≤ s.weighted_strength ∧
      s.weighted_strength ≤ 1) :
    (aggregateProfile mint ts ss).weighted_score =
      (aggregateProfile mint ts ss).potential_score *
        (1 - (aggregateProfile mint ts ss).risk_score) ∧
      0 ≤ (aggregateProfile mint ts ss).weighted_score ∧
      (aggregateProfile mint ts ss).weighted_score ≤ 1 := by
  obtain ⟨hp0, hp1⟩ := potentialScore_mem_unit ss h
  obtain ⟨hr0, hr1⟩ := riskScore_mem_unit ss h
  refine ⟨rfl, ?_, ?_⟩
  · show 0 ≤ potentialScore ss * (1 - riskScore ss)
    exact mul_nonneg hp0 (by linarith)
  · show potentialScore ss * (1 - riskScore ss) ≤ 1
    nlinarith

/-- C3 witness: the amended equation and bounds at a concrete aggregation
over the mock volume-spike signal. -/
theorem C3_witness :
    0 ≤ (aggregateProfile "m" 0 [mockVolumeSpike]).weighted_score ∧
      (aggregateProfile "m" 0 [mockVolumeSpike]).weighted_score ≤ 1 := by
  have h := C3_amended "m" 0 [mockVolumeSpike] (by
    intro s hs
    simp only [List.mem_singleton] at hs
    subst hs
    refine ⟨?_, ?_, ?_⟩ <;> norm_num [mockVolumeSpike])
  exact h.2

/-- C4 counterexample: the mock profile in `test_weighted_signals.py` has
`risk_score = 0.25 < 0.33` yet `risk_level = Medium`, so the claimed
discretization fails on the repository's own TokenProfile value. -/
theorem C4_counterexample :
    (mockProfile 0).risk_score < 33/100 ∧
      (mockProfile 0).risk_level ≠ RiskLevel.Low := by
  constructor
  · simp only [mockProfile]
    norm_num
  · simp [mockProfile]

/-- C4 (amended): for every TokenProfile produced by the ProfileAggregator,
`risk_level` is the discretization of `risk_score`: Low below 0.33, Medium
below 0.66, High otherwise; the hand-written mock profile of the test
script (risk 0.25 labelled Medium) does not satisfy it. -/
theorem C4_amended (mint : String) (ts : ℕ) (ss : List Signal) (rs : ℚ) :
    (aggregateProfile mint ts ss).risk_level =
      riskLevelOf (aggregateProfile mint ts ss).risk_score ∧
      (rs < 33/100 → riskLevelOf rs = RiskLevel.Low) ∧
      (33/100 ≤ rs → rs < 66/100 → riskLevelOf rs = RiskLevel.Medium) ∧
      (66/100 ≤ rs → riskLevelOf rs = RiskLevel.High) := by
  refine ⟨rfl, ?_, ?_, ?_⟩
  · intro h
    simp [riskLevelOf, h]
  · intro h1 h2
    simp [riskLevelOf, not_lt.2 h1, h2]
  · intro h
    have h1 : ¬ rs < 33/100 := by linarith
    have h2 : ¬ rs < 66/100 := by linarith
    simp [riskLevelOf, h1, h2]

/-- C4 witness: a risk score of 0.25 is discretized to Low by the
aggregator's rule. -/
theorem C4_witness : riskLevelOf (25/100) = RiskLevel.Low :=
  (C4_amended "m" 0 [] (25/100)).2.1 (by norm_num)

/-- C5 counterexample: in the mock profile of `test_weighted_signals.py`,
`top_signals` contains the high-liquidity signal, which does not occur in
`signals` — the subset part of the invariant fails on the repository's own
TokenProfile value. -/
theorem C5_counterexample :
    mockHighLiquidity ∈ (mockProfile 0).top_signals ∧
      mockHighLiquidity ∉ (mockProfile 0).signals := by
  constructor
  · simp [mockProfile]
  · simp [mockProfile, mockVolumeSpike, mockHighLiquidity]

/-- C5 (amended): for every TokenProfile produced by the ProfileAggregator,
`top_signals` is a sub-permutation (subset selection) of `signals`, has at
most N = 3 elements, and is sorted descending by `weighted_strength`; the
hand-written mock profile of the test script violates the subset part. -/
theorem C5_amended (mint : String) (ts : ℕ) (ss : List Signal) :
    List.Subperm (aggregateProfile mint ts ss).top_signals
        (aggregateProfile mint ts ss).signals ∧
      (aggregateProfile mint ts ss).top_signals.length ≤ 3 ∧
      List.Sorted (fun a b => b.weighted_strength ≤ a.weighted_strength)
        (aggregateProfile mint ts ss).top_signals :=
  ⟨selectTopSignals_subperm 3 ss, selectTopSignals_length_le 3 ss,
    selectTopSignals_sorted 3 ss⟩

/-- C6: for every batch, the returned decisions are aligned one-to-one
with the input profiles by mint in input order: the output length equals
the input length minus the dropped count, the output mints are exactly the
kept input mints in order, and (for distinct input mints) every non-dropped
input mint appears exactly once. -/
theorem C6_batch_alignment (oracle : TokenProfile → RouteOutcome)
    (ps : List TokenProfile) :
    (routeBatch oracle ps).length =
        ps.length - (droppedProfiles oracle ps).length ∧
      (routeBatch oracle ps).map AIDecision.mint =
        (keptProfiles oracle ps).map TokenProfile.mint ∧
      ((ps.map TokenProfile.mint).Nodup →
        ∀ p ∈ ps, (oracle p).isDropped = false →
          ((routeBatch oracle ps).map AIDecision.mint).count p.mint = 1) := by
  refine ⟨?_, routeBatch_map_mint oracle ps, ?_⟩
  · have h := kept_add_dropped oracle ps
    rw [routeBatch_length]
    omega
  · intro hnd p hp hkept
    rw [routeBatch_map_mint]
    apply List.count_eq_one_of_mem
    · exact hnd.sublist ((List.filter_sublist _).map TokenProfile.mint)
    · exact List.mem_map.2
        ⟨p, List.mem_filter.2 ⟨hp, by simp [hkept]⟩, rfl⟩

/-- C6 witness: with a concrete oracle dropping mint "A" and a concrete
two-profile batch, the mint "B" appears exactly once in the output. -/
theorem C6_witness :
    ((routeBatch sampleOracle sampleBatch).map AIDecision.mint).count "B" =
      1 := by
  have h := C6_batch_alignment sampleOracle sampleBatch
  have hB := h.2.2 (by simp [sampleBatch, aggregateProfile])
    (aggregateProfile "B" 0 [])
    (by simp [sampleBatch])
    (by simp [sampleOracle, aggregateProfile, RouteOutcome.isDropped])
  simpa [aggregateProfile] using hB

/-- C7: every decision produced by the router has exactly one of the two
shapes (success or failure, never both), a produced success shape carries
confidence in [0, 1] and nonnegative latency whenever the gateway outcomes
are well-formed, and (for distinct input mints) no mint carries two
decisions. -/
theorem C7_decision_shapes (oracle : TokenProfile → RouteOutcome)
    (ps : List TokenProfile)
    (hwf : ∀ p, RouteOutcome.wellFormed (oracle p)) :
    (∀ d ∈ routeBatch oracle ps,
        (d.isSuccessShape = true ↔ d.isErrorShape = false) ∧ d.wellFormed) ∧
      ((ps.map TokenProfile.mint).Nodup →
        ∀ d1 ∈ routeBatch oracle ps, ∀ d2 ∈ routeBatch oracle ps,
          d1.mint = d2.mint → d1 = d2) := by
  constructor
  · intro d hd
    obtain ⟨p, hp, hpd⟩ := List.mem_filterMap.1 hd
    have hw := hwf p
    unfold routeOne at hpd
    cases h : oracle p <;> rw [h] at hpd hw <;>
      simp only [Option.some.injEq, reduceCtorEq] at hpd
    · subst hpd
      exact ⟨by simp [AIDecision.isSuccessShape, AIDecision.isErrorShape],
        hw⟩
    · subst hpd
      exact ⟨by simp [AIDecision.isSuccessShape, AIDecision.isErrorShape],
        trivial⟩
  · intro hnd d1 hd1 d2 hd2 hmm
    have hnd' : ((routeBatch oracle ps).map AIDecision.mint).Nodup := by
      rw [routeBatch_map_mint]
      exact hnd.sublist ((List.filter_sublist _).map TokenProfile.mint)
    exact List.inj_on_of_nodup_map hnd' hd1 hd2 hmm

/-- C7 witness: the concrete oracle and batch produce a decision whose
success shape holds and whose error shape does not. -/
theorem C7_witness :
    (AIDecision.success "B" "Buy" (9/10) "fast" 50).isSuccessShape =
      true := by
  have h := C7_decision_shapes sampleOracle sampleBatch (by
    intro p
    unfold sampleOracle
    by_cases hm : p.mint = "A"
    · rw [if_pos hm]
      trivial
    · rw [if_neg hm]
      exact ⟨by norm_num, by norm_num, by norm_num⟩)
  have hmem : AIDecision.success "B" "Buy" (9/10) "fast" 50 ∈
      routeBatch sampleOracle sampleBatch := by
    simp [routeBatch, sampleBatch, sampleOracle, routeOne, aggregateProfile,
      List.filterMap_cons]
  exact ((h.1 _ hmem).1).mpr rfl

/-- C8: per-item failures are converted to failure-shaped decisions and
never abort the batch — a well-formed request always yields HTTP 200 with
a per-item breakdown whose succeeded/failed/dropped counts partition the
submitted count, and only a top-level malformed payload yields a 4xx. -/
theorem C8_error_isolation (oracle : TokenProfile → RouteOutcome)
    (req : BatchRequest) :
    (analyzeTokens oracle (some req)).status = 200 ∧
      (analyzeTokens oracle none).status = 400 ∧
      (∀ p ∈ req.token_profiles, ∀ e, oracle p = RouteOutcome.failure e →
        AIDecision.failure p.mint e ∈
          (analyzeTokens oracle (some req)).ai_decisions) ∧
      (analyzeTokens oracle (some req)).summary.succeeded +
          (analyzeTokens oracle (some req)).summary.failed +
          (analyzeTokens oracle (some req)).summary.dropped =
        (analyzeTokens oracle (some req)).summary.submitted := by
  refine ⟨rfl, rfl, ?_, summary_partition oracle req.token_profiles⟩
  intro p hp e he
  show AIDecision.failure p.mint e ∈ routeBatch oracle req.token_profiles
  exact List.mem_filterMap.2 ⟨p, hp, by simp [routeOne, he]⟩

/-- C8 witness: a batch whose single item times out still returns HTTP 200
and records the timeout as a `{mint, error}` decision. -/
theorem C8_witness :
    (analyzeTokens (fun _ => RouteOutcome.failure "timeout")
        (some ⟨[aggregateProfile "X" 0 []], "sniper_engine", 0⟩)).status =
        200 ∧
      AIDecision.failure "X" "timeout" ∈
        (analyzeTokens (fun _ => RouteOutcome.failure "timeout")
          (some ⟨[aggregateProfile "X" 0 []],
            "sniper_engine", 0⟩)).ai_decisions := by
  have h := C8_error_isolation (fun _ => RouteOutcome.failure "timeout")
    ⟨[aggregateProfile "X" 0 []], "sniper_engine", 0⟩
  refine ⟨h.1, ?_⟩
  have hmem := h.2.2.1 (aggregateProfile "X" 0 []) (by simp) "timeout" rfl
  exact hmem

/-- C9 counterexample: with a creation call that fails, the loop of
`setup-helius-webhooks.py` issues exactly one request for the failed
configuration and never sleeps — a failed creation is not retried, and
requests are not spaced by a sleep after a failure. -/
theorem C9_counterexample :
    (createWebhooksLoop (fun _ => none) [tokenMintEventsConfig]).1 =
        [SetupEvent.request "Token Mint Events",
          SetupEvent.failNote "Token Mint Events"] ∧
      (createWebhooksLoop (fun _ => none) [tokenMintEventsConfig]).1.count
        (SetupEvent.request "Token Mint Events") = 1 := by
  constructor <;> rfl

/-- C9 (amended): the loop requests each configuration exactly once, in
order; each successful creation is followed by a one-second sleep (so the
sleep count equals the success count); a failed creation is recorded and
never retried; the collected webhook data is exactly the successful
creations in order. -/
theorem C9_amended (create : WebhookConfig → Option WebhookData)
    (configs : List WebhookConfig) :
    requestsOf (createWebhooksLoop create configs).1 =
        configs.map (fun c => c.name) ∧
      (createWebhooksLoop create configs).2 = configs.filterMap create ∧
      sleepCountOf (createWebhooksLoop create configs).1 =
        (configs.filter fun c => (create c).isSome).length ∧
      failNotesOf (createWebhooksLoop create configs).1 =
        (configs.filter fun c => (create c).isNone).map (fun c => c.name) := by
  induction configs with
  | nil => exact ⟨rfl, rfl, rfl, rfl⟩
  | cons c rest ih =>
      obtain ⟨ih1, ih2, ih3, ih4⟩ := ih
      cases h : create c <;>
        simp [createWebhooksLoop, requestsOf, failNotesOf, sleepCountOf, h,
          List.filterMap_cons, List.filter_cons, ih1, ih2, ih3, ih4] <;>
        simp_all [requestsOf, failNotesOf, sleepCountOf]

/-- C10: the HeliusWebhookManager operations map every failure to a
result value instead of raising: `create_webhook` yields `None` on any
non-200 outcome (and the body on 200), `list_webhooks` yields the empty
list, `delete_webhook` yields false, and `validate_webhook_url` yields
false on any outcome other than a 200/404/405 response. -/
theorem C10_option_like (r1 : HttpResult WebhookData)
    (r2 : HttpResult (List WebhookData)) (r3 r4 : HttpResult Unit) :
    (r1.ok200 = false → HeliusWebhookManager.create_webhook r1 = none) ∧
      (∀ b, HeliusWebhookManager.create_webhook (HttpResult.resp 200 b) =
        some b) ∧
      (r2.ok200 = false → HeliusWebhookManager.list_webhooks r2 = []) ∧
      (r3.ok200 = false → HeliusWebhookManager.delete_webhook r3 = false) ∧
      (r4.okValidate = false →
        HeliusWebhookManager.validate_webhook_url r4 = false) := by
  refine ⟨?_, fun b => rfl, ?_, ?_, ?_⟩
  · cases r1 with
    | exn m => intro _; rfl
    | resp st b =>
        intro hst
        have hne : ¬ st = 200 := by
          simpa [HttpResult.ok200] using hst
        simp [HeliusWebhookManager.create_webhook, hne]
  · cases r2 with
    | exn m => intro _; rfl
    | resp st b =>
        intro hst
        have hne : ¬ st = 200 := by
          simpa [HttpResult.ok200] using hst
        simp [HeliusWebhookManager.list_webhooks, hne]
  · cases r3 with
    | exn m => intro _; rfl
    | resp st u => intro hst; exact hst
  · cases r4 with
    | exn m => intro _; rfl
    | resp st u => intro hst; exact hst

/-- C10 witness: a connection exception on creation yields `None`, a 500
on listing yields the empty list, an exception on deletion yields false,
and a 500 on URL validation yields false. -/
theorem C10_witness :
    HeliusWebhookManager.create_webhook (HttpResult.exn "connection refused") =
        none ∧
      HeliusWebhookManager.list_webhooks (HttpResult.resp 500 []) = [] ∧
      HeliusWebhookManager.delete_webhook (HttpResult.exn "timeout") =
        false ∧
      HeliusWebhookManager.validate_webhook_url (HttpResult.resp 500 ()) =
        false := by
  have h := C10_option_like (HttpResult.exn "connection refused")
    (HttpResult.resp 500 []) (HttpResult.exn "timeout")
    (HttpResult.resp 500 ())
  exact ⟨h.1 rfl, h.2.2.1 rfl, h.2.2.2.1 rfl, h.2.2.2.2 rfl⟩

end Cerebrosso
